import Mathlib

/-!
Verification of the scoring core of `stock_screener.py` (class `StockScorer`).

The Python code reads fundamentals out of `dict`s produced by an external
provider.  A numeric field of such a dict is in one of three states: the key
is missing, the key is present with value `None`, or the key is present with
a number.  Floats are embedded as exact rationals.  All lookups in the source
go through `d.get(key, default)`, so a missing key becomes the default value.
The scoring functions run inside `try`/`except` blocks: an expression that
raises (e.g. `None * 100` inside an f-string, or `'x' in None`) aborts the
rest of that scorer, which then returns the score accumulated so far together
with an `'Error'` entry in its details dict.  Those abort points are made
explicit below.
-/

/-- State of a numeric field of a Python info dict: key missing (`absent`),
key present with value `None`, or key present with a number. -/
inductive PyF where
  | absent : PyF
  | none : PyF
  | num : ℚ → PyF
deriving DecidableEq, Repr

/-- State of a string field of a Python info dict. -/
inductive PyS where
  | absent : PyS
  | none : PyS
  | str : String → PyS
deriving DecidableEq, Repr

/-- Python truthiness of `d.get(key, 0)`: a missing key defaults to `0`
(falsy), a stored `None` is falsy, and a number is truthy iff nonzero. -/
def truthyF : PyF → Bool
  | PyF.num q => decide (q ≠ 0)
  | _ => false

/-- Numeric value of `d.get(key, 0)`.  A missing key defaults to `0`.  The
`PyF.none` case is only consulted where the source itself consumes the value
(never: every numeric use is either truthiness-guarded or behind an explicit
`PyF.none` abort/skip match), so mapping it to `0` is inert. -/
def valF : PyF → ℚ
  | PyF.num q => q
  | _ => 0

/-- Result of `d.get(key, dflt)` for a string field: `Option.none` models a
stored Python `None`, which is distinct from every string. -/
def pyGetS (dflt : String) : PyS → Option String
  | PyS.absent => some dflt
  | PyS.none => Option.none
  | PyS.str s => some s

/-- `str(x)` applied to the result of `d.get(key, '')` (used for
`longBusinessSummary`): `str(None)` is the string `"None"`. -/
def pyStrOf : PyS → String
  | PyS.absent => ""
  | PyS.none => "None"
  | PyS.str s => s

/-- Whether `pat` occurs at the head of the second list. -/
def headMatch : List Char → List Char → Bool
  | [], _ => true
  | _ :: _, [] => false
  | a :: as, b :: bs => (a == b) && headMatch as bs

/-- Whether `pat` occurs contiguously somewhere in the list. -/
def subOccurs (pat : List Char) : List Char → Bool
  | [] => pat.isEmpty
  | c :: t => headMatch pat (c :: t) || subOccurs pat t

/-- Python's substring test `needle in hay` on strings. -/
def pyIn (needle hay : String) : Bool :=
  subOccurs needle.toList hay.toList

/-- Membership `v in lst` where `v` came from a string-field lookup; a Python
`None` is never equal to a string, so it is simply not a member. -/
def pyMem (v : Option String) (lst : List String) : Bool :=
  match v with
  | some s => lst.contains s
  | Option.none => false

/-- The `financialData` sub-dict consumed by `score_financial_metrics`
(`stock_info.get('financialData', {})`). -/
structure FinancialData where
  earningsGrowth : PyF
  freeCashflow : PyF
  profitMargins : PyF
  returnOnEquity : PyF
  ebit : PyF
  interestExpense : PyF
  debtToEquity : PyF
deriving DecidableEq, Repr

/-- The fundamentals snapshot (`stock_info` dict) read by the three scorers
and by `score_stock`.  `financialData = Option.none` models the key present
with value `None` (on which `.get` raises `AttributeError`); a missing
`financialData` key yields `{}`, i.e. `some` of an all-absent record. -/
structure StockInfo where
  financialData : Option FinancialData
  dividendRate : PyF
  fiveYearAvgDividendYield : PyF
  sharesOutstanding : PyF
  sharesShort : PyF
  longBusinessSummary : PyS
  bookValue : PyF
  sector : PyS
  industry : PyS
  country : PyS
  marketCap : PyF
  profitMargins : PyF
  longName : PyS
  currentPrice : PyF
  dividendYield : PyF
  beta : PyF
deriving DecidableEq, Repr

/-- Criterion 1, EPS growth (source lines 50-56):
`if eps_growth and eps_growth > 0.05: score += 1`.  Both branches record an
`'EPS Growth'` entry.  When the stored value is `None` the `else` branch's
f-string evaluates `eps_growth*100` and raises; that abort is handled by the
caller, which never consults this function at `PyF.none`. -/
def epsGrowthCrit (eg : PyF) : ℚ × List String :=
  if truthyF eg && decide ((0.05 : ℚ) < valF eg) then (1, ["EPS Growth"])
  else (0, ["EPS Growth"])

/-- Criterion 2, dividend (source lines 58-70): +1 with a positive
`dividendRate` and a positive `fiveYearAvgDividendYield`, +0.5 with only the
rate, else 0; always records a `'Dividend'` entry. -/
def dividendCrit (dr fy : PyF) : ℚ × List String :=
  if truthyF dr && decide ((0 : ℚ) < valF dr) then
    if truthyF fy && decide ((0 : ℚ) < valF fy) then (1, ["Dividend"])
    else (1/2, ["Dividend"])
  else (0, ["Dividend"])

/-- Criterion 3, share count (source lines 72-78): +0.5 when
`sharesOutstanding` is truthy and either `sharesShort` is truthy or the
business summary mentions "buyback"; otherwise no score and no entry. -/
def sharesCrit (so ss : PyF) (summary : PyS) : ℚ × List String :=
  if truthyF so then
    if truthyF ss || pyIn "buyback" (pyStrOf summary).toLower then
      (1/2, ["Shares"])
    else (0, [])
  else (0, [])

/-- Criterion 4, book value (source lines 80-84): +0.5 when `bookValue` is
truthy and positive; otherwise no entry. -/
def bookValueCrit (bv : PyF) : ℚ × List String :=
  if truthyF bv && decide ((0 : ℚ) < valF bv) then (1/2, ["Book Value"])
  else (0, [])

/-- Criterion 5, free cash flow (source lines 86-92): +1 when positive;
always records an `'FCF'` entry. -/
def fcfCrit (f : PyF) : ℚ × List String :=
  if truthyF f && decide ((0 : ℚ) < valF f) then (1, ["FCF"])
  else (0, ["FCF"])

/-- Criterion 6, net margin (source lines 94-104): when `profitMargins` is
truthy, +1 above 10%, +0.5 above 5%, else 0 with an entry; when falsy,
nothing at all. -/
def netMarginCrit (pm : PyF) : ℚ × List String :=
  if truthyF pm then
    if decide ((0.10 : ℚ) < valF pm) then (1, ["Net Margin"])
    else if decide ((0.05 : ℚ) < valF pm) then (1/2, ["Net Margin"])
    else (0, ["Net Margin"])
  else (0, [])

/-- Criterion 7, return on equity (source lines 106-116): when truthy, +1 in
[15%, 40%], +0.5 in [10%, 15%), else 0 with an entry; when falsy, nothing. -/
def roeCrit (r : PyF) : ℚ × List String :=
  if truthyF r then
    if decide ((0.15 : ℚ) ≤ valF r) && decide (valF r ≤ (0.40 : ℚ)) then
      (1, ["ROE"])
    else if decide ((0.10 : ℚ) ≤ valF r) && decide (valF r < (0.15 : ℚ)) then
      (1/2, ["ROE"])
    else (0, ["ROE"])
  else (0, [])

/-- Criterion 8, interest coverage (source lines 118-134): with a truthy
nonzero `interestExpense`, the ratio `abs(ebit / interest_expense)` (or 0
when `ebit` is falsy) earns +1 above 10, +0.5 above 5, else 0.  A zero,
missing or `None` `interestExpense` takes the `else` branch: +1, "No debt". -/
def interestCoverageCrit (ebit ie : PyF) : ℚ × List String :=
  if truthyF ie && decide (valF ie ≠ 0) then
    let ic : ℚ := if truthyF ebit then |valF ebit / valF ie| else 0
    if decide ((10 : ℚ) < ic) then (1, ["Interest Coverage"])
    else if decide ((5 : ℚ) < ic) then (1/2, ["Interest Coverage"])
    else (0, ["Interest Coverage"])
  else (1, ["Interest Coverage"])

/-- Criterion 9, debt to equity (source lines 136-143):
`debt_to_equity = financials.get('debtToEquity', 0)` followed by
`if debt_to_equity is not None`.  A missing key therefore arrives as the
number `0`, passes the guard and earns +1 with an entry; only a stored
`None` skips the criterion without an entry. -/
def debtEquityCrit (de : PyF) : ℚ × List String :=
  match de with
  | PyF.none => (0, [])
  | _ =>
    if decide (valF de < 50) then (1, ["D/E Ratio"])
    else (0, ["D/E Ratio"])

/-- `StockScorer.score_financial_metrics` (source lines 27-148).  The whole
body runs inside one `try`: a `financialData` stored as `None` raises at
`financials.get(...)` before any criterion, and a `None` `earningsGrowth`
raises inside criterion 1's f-string (`eps_growth*100`); in both cases the
`except` returns the accumulated score `0` with an `'Error'` entry.  No other
expression in the body can raise over this data model, so otherwise the nine
criteria all run and the score is their sum. -/
def score_financial_metrics (stock_info : StockInfo) : ℚ × List String :=
  match stock_info.financialData with
  | Option.none => (0, ["Error"])
  | some financials =>
    match financials.earningsGrowth with
    | PyF.none => (0, ["Error"])
    | _ =>
      let c1 := epsGrowthCrit financials.earningsGrowth
      let c2 := dividendCrit stock_info.dividendRate stock_info.fiveYearAvgDividendYield
      let c3 := sharesCrit stock_info.sharesOutstanding stock_info.sharesShort
        stock_info.longBusinessSummary
      let c4 := bookValueCrit stock_info.bookValue
      let c5 := fcfCrit financials.freeCashflow
      let c6 := netMarginCrit financials.profitMargins
      let c7 := roeCrit financials.returnOnEquity
      let c8 := interestCoverageCrit financials.ebit financials.interestExpense
      let c9 := debtEquityCrit financials.debtToEquity
      (c1.1 + c2.1 + c3.1 + c4.1 + c5.1 + c6.1 + c7.1 + c8.1 + c9.1,
       c1.2 ++ c2.2 ++ c3.2 ++ c4.2 ++ c5.2 ++ c6.2 ++ c7.2 ++ c8.2 ++ c9.2)

/-- Moat rule 1, brand (source lines 172-179): with market cap above $50B,
+1 in the three consumer sectors and +0.5 otherwise; below, no entry.  The
membership test `sector in [...]` is `None`-safe. -/
def brandCrit (cap : ℚ) (sector : Option String) : ℚ × List String :=
  if decide ((50000000000 : ℚ) < cap) then
    if pyMem sector ["Consumer Cyclical", "Consumer Defensive", "Communication Services"] then
      (1, ["Brand"])
    else (1/2, ["Brand"])
  else (0, [])

/-- Moat rule 2, patents/licenses (source lines 181-184). -/
def patentsCrit (sector : Option String) : ℚ × List String :=
  if pyMem sector ["Healthcare", "Technology"] then (1, ["Patents"])
  else (0, [])

/-- Moat rule 3, cost advantage (source lines 186-189): truthy margin above
15% together with a market cap above $10B. -/
def costAdvantageCrit (pm : PyF) (cap : ℚ) : ℚ × List String :=
  if truthyF pm && decide ((0.15 : ℚ) < valF pm) && decide ((10000000000 : ℚ) < cap) then
    (1, ["Cost Advantage"])
  else (0, [])

/-- Moat rule 4, switching costs (source lines 191-195): substring match of
the industry against a fixed list. -/
def switchingCostCrit (industry : String) : ℚ × List String :=
  if (["Software", "Banks", "Insurance", "Utilities"]).any (fun i => pyIn i industry) then
    (1, ["Switching Cost"])
  else (0, [])

/-- Moat rule 5, network effects (source lines 197-201). -/
def networkEffectCrit (industry : String) : ℚ × List String :=
  if (["Internet", "Payment", "Social Media", "Marketplace"]).any (fun i => pyIn i industry) then
    (1, ["Network Effect"])
  else (0, [])

/-- Moat rule 6, niche market (source lines 203-206): market cap strictly
between $1B and $10B earns +0.5. -/
def nicheCrit (cap : ℚ) : ℚ × List String :=
  if decide ((1000000000 : ℚ) < cap) && decide (cap < (10000000000 : ℚ)) then
    (1/2, ["Niche"])
  else (0, [])

/-- Moat rule 7, longevity (source lines 208-215): the raw (unguarded)
`fiveYearAvgDividendYield` lookup compared with `> 0` earns +1, else a market
cap above $100B earns +0.5. -/
def longevityCrit (fy cap : ℚ) : ℚ × List String :=
  if decide ((0 : ℚ) < fy) then (1, ["Longevity"])
  else if decide ((100000000000 : ℚ) < cap) then (1/2, ["Longevity"])
  else (0, [])

/-- `StockScorer.score_competitive_moat` (source lines 150-220).  Abort
points of the surrounding `try`: a `None` `marketCap` raises at the rule-1
comparison `market_cap > 50e9` (score so far 0); a `None` `industry` raises
inside rule 4's `any(ind in industry ...)` after rules 1-3 have run; a `None`
`fiveYearAvgDividendYield` raises at rule 7's unguarded `> 0` comparison
after rules 1-6 have run.  Each abort returns the accumulated score with an
`'Error'` entry appended. -/
def score_competitive_moat (stock_info : StockInfo) : ℚ × List String :=
  match stock_info.marketCap with
  | PyF.none => (0, ["Error"])
  | _ =>
    let cap := valF stock_info.marketCap
    let sector := pyGetS "" stock_info.sector
    let c1 := brandCrit cap sector
    let c2 := patentsCrit sector
    let c3 := costAdvantageCrit stock_info.profitMargins cap
    match pyGetS "" stock_info.industry with
    | Option.none =>
      (c1.1 + c2.1 + c3.1, c1.2 ++ c2.2 ++ c3.2 ++ ["Error"])
    | some industry =>
      let c4 := switchingCostCrit industry
      let c5 := networkEffectCrit industry
      let c6 := nicheCrit cap
      match stock_info.fiveYearAvgDividendYield with
      | PyF.none =>
        (c1.1 + c2.1 + c3.1 + c4.1 + c5.1 + c6.1,
         c1.2 ++ c2.2 ++ c3.2 ++ c4.2 ++ c5.2 ++ c6.2 ++ ["Error"])
      | _ =>
        let c7 := longevityCrit (valF stock_info.fiveYearAvgDividendYield) cap
        (c1.1 + c2.1 + c3.1 + c4.1 + c5.1 + c6.1 + c7.1,
         c1.2 ++ c2.2 ++ c3.2 ++ c4.2 ++ c5.2 ++ c6.2 ++ c7.2)

/-- Fixed industry lists of `calculate_risk_deductions` (source lines
240-241 and 247). -/
def high_tech_industries : List String :=
  ["Semiconductor", "Software—Application", "Electronics",
   "Consumer Electronics", "Internet Content"]

def gov_industries : List String :=
  ["Aerospace & Defense", "Government"]

/-- `StockScorer.calculate_risk_deductions` (source lines 222-260).  A `None`
`industry` raises inside the first `any(tech in industry ...)` before any
deduction, so the `except` returns `(0, {'Error'})`.  Otherwise each of the
three risk rules independently subtracts 1; the country membership test is
`None`-safe. -/
def calculate_risk_deductions (stock_info : StockInfo) : ℚ × List String :=
  match pyGetS "" stock_info.industry with
  | Option.none => (0, ["Error"])
  | some industry =>
    let c1 : ℚ × List String :=
      if high_tech_industries.any (fun tech => pyIn tech industry) then
        (-1, ["Tech Risk"])
      else (0, [])
    let c2 : ℚ × List String :=
      if gov_industries.any (fun gov => pyIn gov industry) then
        (-1, ["Gov Risk"])
      else (0, [])
    let c3 : ℚ × List String :=
      if pyMem (pyGetS "" stock_info.country) ["China", "Hong Kong"] then
        (-1, ["China Risk"])
      else (0, [])
    (c1.1 + c2.1 + c3.1, c1.2 ++ c2.2 ++ c3.2)

/-- The pass/fail threshold set in `StockScorer.__init__` (source line 25). -/
def min_passing_score : ℚ := 7

/-- Successful per-ticker result dict built by `score_stock` (source lines
283-300); field names follow the dict keys.  Raw pass-through lookups keep
their three-state values. -/
structure OkResult where
  ticker : String
  company_name : Option String
  sector : Option String
  industry : Option String
  market_cap : PyF
  current_price : PyF
  financial_score : ℚ
  moat_score : ℚ
  risk_deduction : ℚ
  total_score : ℚ
  passing : Bool
  financial_details : List String
  moat_details : List String
  risk_details : List String
  dividend_yield : PyF
  beta : PyF
deriving DecidableEq, Repr

/-- Result of `score_stock`: the full dict on success, or the error dict
`{'ticker', 'error', 'total_score': 0, 'passing': False}` (source lines
304-310) when the fetch raised. -/
inductive StockResult where
  | ok : OkResult → StockResult
  | err : String → String → ℚ → Bool → StockResult
deriving DecidableEq, Repr

def StockResult.total_score : StockResult → ℚ
  | StockResult.ok r => r.total_score
  | StockResult.err _ _ ts _ => ts

def StockResult.passing : StockResult → Bool
  | StockResult.ok r => r.passing
  | StockResult.err _ _ _ p => p

/-- Value stored by a `d.get(key, 0)` pass-through: a missing key becomes
the number `0`, everything else is kept as is. -/
def getF0 : PyF → PyF
  | PyF.absent => PyF.num 0
  | f => f

/-- `StockScorer.score_stock` (source lines 262-310).  The external fetch
(`yf.Ticker(ticker).info` and the history call) is the collaborator; its
outcome is passed in as an `Except`.  On success the three scorers run, the
total is their sum and `passing` is `total_score >= self.min_passing_score`;
a fetch failure short-circuits to the error dict with `passing = False`. -/
def score_stock (ticker : String) (fetched : Except String StockInfo) : StockResult :=
  match fetched with
  | Except.error e => StockResult.err ticker e 0 false
  | Except.ok info =>
    let fin := score_financial_metrics info
    let moat := score_competitive_moat info
    let risk := calculate_risk_deductions info
    let total := fin.1 + moat.1 + risk.1
    StockResult.ok
      { ticker := ticker
        company_name := match info.longName with
          | PyS.absent => some ticker
          | PyS.none => Option.none
          | PyS.str s => some s
        sector := pyGetS "N/A" info.sector
        industry := pyGetS "N/A" info.industry
        market_cap := getF0 info.marketCap
        current_price := getF0 info.currentPrice
        financial_score := fin.1
        moat_score := moat.1
        risk_deduction := risk.1
        total_score := total
        passing := decide (min_passing_score ≤ total)
        financial_details := fin.2
        moat_details := moat.2
        risk_details := risk.2
        dividend_yield := getF0 info.dividendYield
        beta := getF0 info.beta }

/-- A snapshot with every key missing: `financialData` defaults to `{}`. -/
def blankFin : FinancialData :=
  { earningsGrowth := PyF.absent, freeCashflow := PyF.absent,
    profitMargins := PyF.absent, returnOnEquity := PyF.absent,
    ebit := PyF.absent, interestExpense := PyF.absent,
    debtToEquity := PyF.absent }

def blankInfo : StockInfo :=
  { financialData := some blankFin, dividendRate := PyF.absent,
    fiveYearAvgDividendYield := PyF.absent, sharesOutstanding := PyF.absent,
    sharesShort := PyF.absent, longBusinessSummary := PyS.absent,
    bookValue := PyF.absent, sector := PyS.absent, industry := PyS.absent,
    country := PyS.absent, marketCap := PyF.absent, profitMargins := PyF.absent,
    longName := PyS.absent, currentPrice := PyF.absent,
    dividendYield := PyF.absent, beta := PyF.absent }

/-- A snapshot hitting the top tier of every financial criterion: growth
8%, an established dividend, shares outstanding with short interest on
record, positive book value, positive free cash flow, 12% margin, 18% ROE,
no interest expense, debt/equity 20 (i.e. 0.2). -/
def maxFinInfo : StockInfo :=
  { blankInfo with
    financialData := some
      { blankFin with
        earningsGrowth := PyF.num 0.08, freeCashflow := PyF.num 5000000000,
        profitMargins := PyF.num 0.12, returnOnEquity := PyF.num 0.18,
        debtToEquity := PyF.num 20 },
    dividendRate := PyF.num 2, fiveYearAvgDividendYield := PyF.num 2.5,
    sharesOutstanding := PyF.num 1000000000, sharesShort := PyF.num 1000000,
    bookValue := PyF.num 10 }

/-- The snapshot of the spec's moat/risk scenario: Technology sector, $5B
market cap, 20% margin, industry "Software—Application", all else absent. -/
def c5Info : StockInfo :=
  { blankInfo with
    sector := PyS.str "Technology", marketCap := PyF.num 5000000000,
    profitMargins := PyF.num 0.20, industry := PyS.str "Software—Application" }

/-- Hong-Kong country, no other risk trigger (industry key missing). -/
def hkInfo : StockInfo :=
  { blankInfo with country := PyS.str "Hong Kong" }

/-- Chinese company whose industry key is present but holds `None`. -/
def chinaNoneIndustryInfo : StockInfo :=
  { blankInfo with country := PyS.str "China", industry := PyS.none }

/-- Snapshot whose `earningsGrowth` key holds `None`; criterion 1's f-string
then raises `TypeError` on `None * 100`. -/
def badEpsInfo : StockInfo :=
  { blankInfo with
    financialData := some { blankFin with earningsGrowth := PyF.none } }

lemma epsGrowthCrit_bounds (f : PyF) :
    0 ≤ (epsGrowthCrit f).1 ∧ (epsGrowthCrit f).1 ≤ 1 := by
  unfold epsGrowthCrit; split_ifs <;> norm_num

lemma dividendCrit_bounds (dr fy : PyF) :
    0 ≤ (dividendCrit dr fy).1 ∧ (dividendCrit dr fy).1 ≤ 1 := by
  unfold dividendCrit; split_ifs <;> norm_num

lemma sharesCrit_bounds (so ss : PyF) (summary : PyS) :
    0 ≤ (sharesCrit so ss summary).1 ∧ (sharesCrit so ss summary).1 ≤ 1/2 := by
  unfold sharesCrit; split_ifs <;> norm_num

lemma bookValueCrit_bounds (bv : PyF) :
    0 ≤ (bookValueCrit bv).1 ∧ (bookValueCrit bv).1 ≤ 1/2 := by
  unfold bookValueCrit; split_ifs <;> norm_num

lemma fcfCrit_bounds (f : PyF) :
    0 ≤ (fcfCrit f).1 ∧ (fcfCrit f).1 ≤ 1 := by
  unfold fcfCrit; split_ifs <;> norm_num

lemma netMarginCrit_bounds (pm : PyF) :
    0 ≤ (netMarginCrit pm).1 ∧ (netMarginCrit pm).1 ≤ 1 := by
  unfold netMarginCrit; split_ifs <;> norm_num

lemma roeCrit_bounds (r : PyF) :
    0 ≤ (roeCrit r).1 ∧ (roeCrit r).1 ≤ 1 := by
  unfold roeCrit; split_ifs <;> norm_num

lemma interestCoverageCrit_bounds (ebit ie : PyF) :
    0 ≤ (interestCoverageCrit ebit ie).1 ∧ (interestCoverageCrit ebit ie).1 ≤ 1 := by
  simp only [interestCoverageCrit]
  split_ifs <;> norm_num

lemma debtEquityCrit_bounds (de : PyF) :
    0 ≤ (debtEquityCrit de).1 ∧ (debtEquityCrit de).1 ≤ 1 := by
  cases de <;> simp only [debtEquityCrit] <;> (try split_ifs) <;> norm_num

/-- The nine financial criteria sum to something between 0 and 8: their
individual maxima are 1, 1, ½, ½, 1, 1, 1, 1, 1. -/
lemma finCritSum_bounds (eg dr fy so ss : PyF) (summary : PyS)
    (bv fcf pm roe ebit ie de : PyF) :
    0 ≤ (epsGrowthCrit eg).1 + (dividendCrit dr fy).1 + (sharesCrit so ss summary).1 +
        (bookValueCrit bv).1 + (fcfCrit fcf).1 + (netMarginCrit pm).1 + (roeCrit roe).1 +
        (interestCoverageCrit ebit ie).1 + (debtEquityCrit de).1 ∧
      (epsGrowthCrit eg).1 + (dividendCrit dr fy).1 + (sharesCrit so ss summary).1 +
        (bookValueCrit bv).1 + (fcfCrit fcf).1 + (netMarginCrit pm).1 + (roeCrit roe).1 +
        (interestCoverageCrit ebit ie).1 + (debtEquityCrit de).1 ≤ 8 := by
  have h1 := epsGrowthCrit_bounds eg
  have h2 := dividendCrit_bounds dr fy
  have h3 := sharesCrit_bounds so ss summary
  have h4 := bookValueCrit_bounds bv
  have h5 := fcfCrit_bounds fcf
  have h6 := netMarginCrit_bounds pm
  have h7 := roeCrit_bounds roe
  have h8 := interestCoverageCrit_bounds ebit ie
  have h9 := debtEquityCrit_bounds de
  exact ⟨by linarith [h1.1, h2.1, h3.1, h4.1, h5.1, h6.1, h7.1, h8.1, h9.1],
         by linarith [h1.2, h2.2, h3.2, h4.2, h5.2, h6.2, h7.2, h8.2, h9.2]⟩

/-- The financial score of every snapshot lies in [0, 8]. -/
lemma score_financial_metrics_bounds (s : StockInfo) :
    0 ≤ (score_financial_metrics s).1 ∧ (score_financial_metrics s).1 ≤ 8 := by
  unfold score_financial_metrics
  split
  · norm_num
  · split
    · norm_num
    · exact finCritSum_bounds _ _ _ _ _ _ _ _ _ _ _ _ _

lemma brandCrit_bounds (cap : ℚ) (sec : Option String) :
    0 ≤ (brandCrit cap sec).1 ∧ (brandCrit cap sec).1 ≤ 1 := by
  unfold brandCrit; split_ifs <;> norm_num

lemma patentsCrit_bounds (sec : Option String) :
    0 ≤ (patentsCrit sec).1 ∧ (patentsCrit sec).1 ≤ 1 := by
  unfold patentsCrit; split_ifs <;> norm_num

lemma costAdvantageCrit_bounds (pm : PyF) (cap : ℚ) :
    0 ≤ (costAdvantageCrit pm cap).1 ∧ (costAdvantageCrit pm cap).1 ≤ 1 := by
  unfold costAdvantageCrit; split_ifs <;> norm_num

lemma switchingCostCrit_bounds (ind : String) :
    0 ≤ (switchingCostCrit ind).1 ∧ (switchingCostCrit ind).1 ≤ 1 := by
  unfold switchingCostCrit; split_ifs <;> norm_num

lemma networkEffectCrit_bounds (ind : String) :
    0 ≤ (networkEffectCrit ind).1 ∧ (networkEffectCrit ind).1 ≤ 1 := by
  unfold networkEffectCrit; split_ifs <;> norm_num

lemma nicheCrit_bounds (cap : ℚ) :
    0 ≤ (nicheCrit cap).1 ∧ (nicheCrit cap).1 ≤ 1/2 := by
  unfold nicheCrit; split_ifs <;> norm_num

lemma longevityCrit_bounds (fy cap : ℚ) :
    0 ≤ (longevityCrit fy cap).1 ∧ (longevityCrit fy cap).1 ≤ 1 := by
  unfold longevityCrit; split_ifs <;> norm_num

/-- The brand rule needs a market cap above $50B, the cost-advantage rule one
above $10B, and the niche rule one strictly below $10B, so the three together
can never exceed 2. -/
lemma brand_cost_niche_le_two (cap : ℚ) (sec : Option String) (pm : PyF) :
    (brandCrit cap sec).1 + (costAdvantageCrit pm cap).1 + (nicheCrit cap).1 ≤ 2 := by
  unfold brandCrit costAdvantageCrit nicheCrit
  split_ifs with h1 h2 h3 h4 <;>
    simp_all only [Bool.and_eq_true, decide_eq_true_eq] <;>
    (norm_num; try linarith [h1, h3.2])

lemma moatSum3_bounds (cap : ℚ) (sec : Option String) (pm : PyF) :
    0 ≤ (brandCrit cap sec).1 + (patentsCrit sec).1 + (costAdvantageCrit pm cap).1 ∧
      (brandCrit cap sec).1 + (patentsCrit sec).1 + (costAdvantageCrit pm cap).1 ≤ 6 := by
  have hb := brandCrit_bounds cap sec
  have hp := patentsCrit_bounds sec
  have hc := costAdvantageCrit_bounds pm cap
  exact ⟨by linarith [hb.1, hp.1, hc.1], by linarith [hb.2, hp.2, hc.2]⟩

lemma moatSum6_bounds (cap : ℚ) (sec : Option String) (pm : PyF) (ind : String) :
    0 ≤ (brandCrit cap sec).1 + (patentsCrit sec).1 + (costAdvantageCrit pm cap).1 +
        (switchingCostCrit ind).1 + (networkEffectCrit ind).1 + (nicheCrit cap).1 ∧
      (brandCrit cap sec).1 + (patentsCrit sec).1 + (costAdvantageCrit pm cap).1 +
        (switchingCostCrit ind).1 + (networkEffectCrit ind).1 + (nicheCrit cap).1 ≤ 6 := by
  have hb := brandCrit_bounds cap sec
  have hp := patentsCrit_bounds sec
  have hc := costAdvantageCrit_bounds pm cap
  have hsw := switchingCostCrit_bounds ind
  have hne := networkEffectCrit_bounds ind
  have hn := nicheCrit_bounds cap
  have hj := brand_cost_niche_le_two cap sec pm
  exact ⟨by linarith [hb.1, hp.1, hc.1, hsw.1, hne.1, hn.1],
         by linarith [hj, hp.2, hsw.2, hne.2]⟩

lemma moatSum7_bounds (cap : ℚ) (sec : Option String) (pm : PyF) (ind : String) (fy : ℚ) :
    0 ≤ (brandCrit cap sec).1 + (patentsCrit sec).1 + (costAdvantageCrit pm cap).1 +
        (switchingCostCrit ind).1 + (networkEffectCrit ind).1 + (nicheCrit cap).1 +
        (longevityCrit fy cap).1 ∧
      (brandCrit cap sec).1 + (patentsCrit sec).1 + (costAdvantageCrit pm cap).1 +
        (switchingCostCrit ind).1 + (networkEffectCrit ind).1 + (nicheCrit cap).1 +
        (longevityCrit fy cap).1 ≤ 6 := by
  have hb := brandCrit_bounds cap sec
  have hp := patentsCrit_bounds sec
  have hc := costAdvantageCrit_bounds pm cap
  have hsw := switchingCostCrit_bounds ind
  have hne := networkEffectCrit_bounds ind
  have hn := nicheCrit_bounds cap
  have hlo := longevityCrit_bounds fy cap
  have hj := brand_cost_niche_le_two cap sec pm
  exact ⟨by linarith [hb.1, hp.1, hc.1, hsw.1, hne.1, hn.1, hlo.1],
         by linarith [hj, hp.2, hsw.2, hne.2, hlo.2]⟩

/-- The moat score of every snapshot lies in [0, 6]: the abort paths return
partial sums, the full path is bounded because brand, cost advantage and
niche can never all fire. -/
lemma score_competitive_moat_bounds (s : StockInfo) :
    0 ≤ (score_competitive_moat s).1 ∧ (score_competitive_moat s).1 ≤ 6 := by
  unfold score_competitive_moat
  split
  · norm_num
  · split
    · exact moatSum3_bounds _ _ _
    · split
      · exact moatSum6_bounds _ _ _ _
      · exact moatSum7_bounds _ _ _ _ _

/-- The risk deduction of every snapshot lies in [-3, 0]. -/
lemma calculate_risk_deductions_bounds (s : StockInfo) :
    -3 ≤ (calculate_risk_deductions s).1 ∧ (calculate_risk_deductions s).1 ≤ 0 := by
  unfold calculate_risk_deductions
  split
  · norm_num
  · split_ifs <;> norm_num

/-- C2: for every fundamentals snapshot, the financial score returned by
`score_financial_metrics` lies in [0, 9], the moat score returned by
`score_competitive_moat` lies in [0, 7], and the risk deduction returned by
`calculate_risk_deductions` lies in [-3, 0]. -/
theorem claim_C2_score_ranges (s : StockInfo) :
    (0 ≤ (score_financial_metrics s).1 ∧ (score_financial_metrics s).1 ≤ 9) ∧
    (0 ≤ (score_competitive_moat s).1 ∧ (score_competitive_moat s).1 ≤ 7) ∧
    (-3 ≤ (calculate_risk_deductions s).1 ∧ (calculate_risk_deductions s).1 ≤ 0) := by
  have hf := score_financial_metrics_bounds s
  have hm := score_competitive_moat_bounds s
  have hr := calculate_risk_deductions_bounds s
  exact ⟨⟨hf.1, by linarith [hf.2]⟩, ⟨hm.1, by linarith [hm.2]⟩, hr⟩

/-- C10: for every fundamentals snapshot, `score_competitive_moat` returns at
most 6: the brand rule (cap > 50e9) and the cost-advantage rule (cap > 10e9)
can never fire together with the niche rule (1e9 < cap < 10e9), so the seven
rules never sum above 6. -/
theorem claim_C10_moat_at_most_six (s : StockInfo) :
    (score_competitive_moat s).1 ≤ 6 :=
  (score_competitive_moat_bounds s).2

/-- C6, counterexample: no fundamentals snapshot reaches a financial score of
9.0 — the nine criteria award at most 1+1+½+½+1+1+1+1+1 = 8. -/
theorem claim_C6_counterexample :
    ¬ ∃ s : StockInfo, (score_financial_metrics s).1 = 9 := by
  rintro ⟨s, hs⟩
  have h := (score_financial_metrics_bounds s).2
  rw [hs] at h
  norm_num at h

/-- C6, amended: the maximum attainable financial score is 8.0; it is reached
(e.g. by `maxFinInfo`) and never exceeded. -/
theorem claim_C6_amended_max_eight :
    (score_financial_metrics maxFinInfo).1 = 8 ∧
      ∀ s : StockInfo, (score_financial_metrics s).1 ≤ 8 := by
  constructor
  · norm_num [score_financial_metrics, maxFinInfo, blankInfo, blankFin, epsGrowthCrit,
      dividendCrit, sharesCrit, bookValueCrit, fcfCrit, netMarginCrit, roeCrit,
      interestCoverageCrit, debtEquityCrit, truthyF, valF, pyGetS, pyStrOf, pyIn,
      pyMem, subOccurs, headMatch]
  · exact fun s => (score_financial_metrics_bounds s).2

/-- C1: for every ticker whose fundamentals fetch succeeds, the result of
`score_stock` satisfies `total_score = financial + moat + risk`; every result
(either variant) satisfies `passing = (total_score >= min_passing_score)`;
and the error-variant result has `passing = false`. -/
theorem claim_C1_threshold_law :
    (∀ (t : String) (info : StockInfo),
      (score_stock t (Except.ok info)).total_score =
        (score_financial_metrics info).1 + (score_competitive_moat info).1 +
          (calculate_risk_deductions info).1) ∧
    (∀ (t : String) (f : Except String StockInfo),
      (score_stock t f).passing =
        decide (min_passing_score ≤ (score_stock t f).total_score)) ∧
    (∀ (t e : String), (score_stock t (Except.error e)).passing = false) := by
  refine ⟨fun t info => rfl, fun t f => ?_, fun t e => rfl⟩
  cases f with
  | error e => norm_num [score_stock, StockResult.passing, StockResult.total_score,
      min_passing_score]
  | ok info => rfl

/-- C3, counterexample: with the `debtToEquity` key missing the criterion
awards +1 and emits a `'D/E Ratio'` entry (the `.get` default `0` passes the
`is not None` guard and `0 < 50`), contradicting "absent contributes 0 and
emits no breakdown entry". -/
theorem claim_C3_counterexample :
    debtEquityCrit PyF.absent ≠ (0, ([] : List String)) ∧
      "D/E Ratio" ∈ (score_financial_metrics blankInfo).2 := by
  constructor
  · norm_num [debtEquityCrit, valF, Prod.ext_iff]
  · norm_num [score_financial_metrics, blankInfo, blankFin, epsGrowthCrit, dividendCrit,
      sharesCrit, bookValueCrit, fcfCrit, netMarginCrit, roeCrit, interestCoverageCrit,
      debtEquityCrit, truthyF, valF, pyGetS, pyStrOf, pyIn, pyMem, subOccurs, headMatch]

/-- C3, amended: the debt/equity criterion awards +1 with a breakdown entry
exactly when the retrieved value is non-`None` and below 50 — which includes
the absent-key case, since `.get('debtToEquity', 0)` then yields 0; a present
value ≥ 50 contributes 0 with an entry; only a stored `None` contributes 0
with no entry. -/
theorem claim_C3_amended_de_law :
    (∀ q : ℚ, debtEquityCrit (PyF.num q) =
      if q < 50 then (1, ["D/E Ratio"]) else (0, ["D/E Ratio"])) ∧
    debtEquityCrit PyF.absent = (1, ["D/E Ratio"]) ∧
    debtEquityCrit PyF.none = (0, []) := by
  refine ⟨fun q => ?_, by norm_num [debtEquityCrit, valF], rfl⟩
  simp only [debtEquityCrit, valF]
  split_ifs <;> simp_all

/-- C4: whenever the `interestExpense` field is zero or absent, the
interest-coverage criterion of `score_financial_metrics` contributes exactly
+1 (with its entry), regardless of the `ebit` value. -/
theorem claim_C4_no_debt_best_case (ebit ie : PyF)
    (h : ie = PyF.absent ∨ ie = PyF.num 0) :
    interestCoverageCrit ebit ie = (1, ["Interest Coverage"]) := by
  rcases h with rfl | rfl <;> simp [interestCoverageCrit, truthyF, valF]

/-- Witness for C4 at a concrete input: absent interest expense together with
a large EBIT still awards exactly +1. -/
theorem claim_C4_witness :
    interestCoverageCrit (PyF.num 123456789) PyF.absent = (1, ["Interest Coverage"]) :=
  claim_C4_no_debt_best_case (PyF.num 123456789) PyF.absent (Or.inl rfl)

/-- When `financialData` is a dict and `earningsGrowth` is not a stored
`None`, the financial score is exactly the nine criteria evaluated on their
own fields, in source order. -/
lemma score_financial_metrics_eq (s : StockInfo) (fin : FinancialData)
    (hfd : s.financialData = some fin) (heg : fin.earningsGrowth ≠ PyF.none) :
    score_financial_metrics s =
      ((epsGrowthCrit fin.earningsGrowth).1 +
        (dividendCrit s.dividendRate s.fiveYearAvgDividendYield).1 +
        (sharesCrit s.sharesOutstanding s.sharesShort s.longBusinessSummary).1 +
        (bookValueCrit s.bookValue).1 + (fcfCrit fin.freeCashflow).1 +
        (netMarginCrit fin.profitMargins).1 + (roeCrit fin.returnOnEquity).1 +
        (interestCoverageCrit fin.ebit fin.interestExpense).1 +
        (debtEquityCrit fin.debtToEquity).1,
       (epsGrowthCrit fin.earningsGrowth).2 ++
        (dividendCrit s.dividendRate s.fiveYearAvgDividendYield).2 ++
        (sharesCrit s.sharesOutstanding s.sharesShort s.longBusinessSummary).2 ++
        (bookValueCrit s.bookValue).2 ++ (fcfCrit fin.freeCashflow).2 ++
        (netMarginCrit fin.profitMargins).2 ++ (roeCrit fin.returnOnEquity).2 ++
        (interestCoverageCrit fin.ebit fin.interestExpense).2 ++
        (debtEquityCrit fin.debtToEquity).2) := by
  obtain ⟨eg, fcf, pm, roe, ebit, ie, de⟩ := fin
  unfold score_financial_metrics
  rw [hfd]
  cases eg with
  | none => exact absurd rfl heg
  | absent => rfl
  | num q => rfl

/-- A stored `None` `earningsGrowth` aborts the whole financial scorer. -/
lemma score_financial_metrics_abort (s : StockInfo) (fin : FinancialData)
    (hfd : s.financialData = some fin) (heg : fin.earningsGrowth = PyF.none) :
    score_financial_metrics s = (0, ["Error"]) := by
  obtain ⟨eg, fcf, pm, roe, ebit, ie, de⟩ := fin
  unfold score_financial_metrics
  rw [hfd]
  cases eg with
  | none => rfl
  | absent => exact absurd heg (by simp)
  | num q => exact absurd heg (by simp)

/-- A `financialData` stored as `None` aborts the whole financial scorer. -/
lemma score_financial_metrics_fd_none (s : StockInfo)
    (hfd : s.financialData = Option.none) :
    score_financial_metrics s = (0, ["Error"]) := by
  unfold score_financial_metrics
  rw [hfd]

/-- Free cash flow at or below zero (or missing) earns nothing. -/
lemma fcfCrit_nonpos (f1 : PyF)
    (h : f1 = PyF.absent ∨ ∃ q0, f1 = PyF.num q0 ∧ q0 ≤ 0) : (fcfCrit f1).1 = 0 := by
  rcases h with rfl | ⟨q0, rfl, hq0⟩
  · rfl
  · have h2 : ¬ ((0 : ℚ) < q0) := not_lt.mpr hq0
    simp [fcfCrit, truthyF, valF, h2]

/-- Positive free cash flow earns the point. -/
lemma fcfCrit_pos (q : ℚ) (hq : 0 < q) : (fcfCrit (PyF.num q)).1 = 1 := by
  have hne : q ≠ 0 := ne_of_gt hq
  simp [fcfCrit, truthyF, valF, hne, hq]

/-- C8: raising the free cash flow field from nonpositive-or-absent to a
positive value, all other fields fixed, never decreases the financial
score. -/
theorem claim_C8_fcf_monotone (s : StockInfo) (fin : FinancialData) (f1 : PyF) (q : ℚ)
    (h1 : f1 = PyF.absent ∨ ∃ q0, f1 = PyF.num q0 ∧ q0 ≤ 0) (hq : 0 < q) :
    (score_financial_metrics
        { s with financialData := some { fin with freeCashflow := f1 } }).1 ≤
      (score_financial_metrics
        { s with financialData := some { fin with freeCashflow := PyF.num q } }).1 := by
  by_cases heg : fin.earningsGrowth = PyF.none
  · rw [score_financial_metrics_abort _ { fin with freeCashflow := f1 } rfl heg,
        score_financial_metrics_abort _ { fin with freeCashflow := PyF.num q } rfl heg]
  · rw [score_financial_metrics_eq _ { fin with freeCashflow := f1 } rfl heg,
        score_financial_metrics_eq _ { fin with freeCashflow := PyF.num q } rfl heg]
    have ha := fcfCrit_nonpos f1 h1
    have hb := fcfCrit_pos q hq
    simp only []
    linarith [ha, hb]

/-- Witness for C8 at a concrete input: the all-absent snapshot against the
same snapshot with free cash flow 1. -/
theorem claim_C8_witness :
    (score_financial_metrics
        { blankInfo with financialData := some { blankFin with freeCashflow := PyF.absent } }).1 ≤
      (score_financial_metrics
        { blankInfo with financialData := some { blankFin with freeCashflow := PyF.num 1 } }).1 :=
  claim_C8_fcf_monotone blankInfo blankFin PyF.absent 1 (Or.inl rfl) (by norm_num)

/-- C9, counterexample: on `badEpsInfo` (an `earningsGrowth` key holding
`None`, all other keys missing) the scorer aborts with score 0, yet the
interest-coverage and debt/equity criteria evaluated on their own (absent)
fields contribute +1 each — so a malformed single field does not leave "every
other criterion contributing as if evaluated on its own fields". -/
theorem claim_C9_counterexample :
    (score_financial_metrics badEpsInfo).1 ≠
      (interestCoverageCrit PyF.absent PyF.absent).1 + (debtEquityCrit PyF.absent).1 := by
  rw [score_financial_metrics_abort badEpsInfo
    { blankFin with earningsGrowth := PyF.none } rfl rfl]
  norm_num [interestCoverageCrit, debtEquityCrit, truthyF, valF]

/-- C9, amended: `score_financial_metrics` is total, and on every snapshot
whose `financialData` is a dict with a non-`None` `earningsGrowth` the score
is the sum of the nine per-criterion contributions, each a function of its
own fields only; a `None` `financialData` or a `None` `earningsGrowth`
instead aborts with the accumulated score 0 and an `'Error'` entry. -/
theorem claim_C9_amended_totality_isolation :
    (∀ (s : StockInfo) (fin : FinancialData), s.financialData = some fin →
      fin.earningsGrowth ≠ PyF.none →
      (score_financial_metrics s).1 =
        (epsGrowthCrit fin.earningsGrowth).1 +
        (dividendCrit s.dividendRate s.fiveYearAvgDividendYield).1 +
        (sharesCrit s.sharesOutstanding s.sharesShort s.longBusinessSummary).1 +
        (bookValueCrit s.bookValue).1 + (fcfCrit fin.freeCashflow).1 +
        (netMarginCrit fin.profitMargins).1 + (roeCrit fin.returnOnEquity).1 +
        (interestCoverageCrit fin.ebit fin.interestExpense).1 +
        (debtEquityCrit fin.debtToEquity).1) ∧
    (∀ (s : StockInfo) (fin : FinancialData), s.financialData = some fin →
      fin.earningsGrowth = PyF.none → score_financial_metrics s = (0, ["Error"])) ∧
    (∀ s : StockInfo, s.financialData = Option.none →
      score_financial_metrics s = (0, ["Error"])) := by
  refine ⟨fun s fin hfd heg => ?_, score_financial_metrics_abort,
    score_financial_metrics_fd_none⟩
  rw [score_financial_metrics_eq s fin hfd heg]

/-- Witness for C9 at concrete inputs: the all-absent snapshot decomposes
criterion-wise, and `badEpsInfo` aborts. -/
theorem claim_C9_witness :
    (score_financial_metrics blankInfo).1 =
      (epsGrowthCrit blankFin.earningsGrowth).1 +
      (dividendCrit blankInfo.dividendRate blankInfo.fiveYearAvgDividendYield).1 +
      (sharesCrit blankInfo.sharesOutstanding blankInfo.sharesShort
        blankInfo.longBusinessSummary).1 +
      (bookValueCrit blankInfo.bookValue).1 + (fcfCrit blankFin.freeCashflow).1 +
      (netMarginCrit blankFin.profitMargins).1 + (roeCrit blankFin.returnOnEquity).1 +
      (interestCoverageCrit blankFin.ebit blankFin.interestExpense).1 +
      (debtEquityCrit blankFin.debtToEquity).1 ∧
    score_financial_metrics badEpsInfo = (0, ["Error"]) :=
  ⟨claim_C9_amended_totality_isolation.1 blankInfo blankFin rfl (by simp [blankFin]),
   claim_C9_amended_totality_isolation.2.1 badEpsInfo
     { blankFin with earningsGrowth := PyF.none } rfl rfl⟩

lemma c5Info_moat_eval : (score_competitive_moat c5Info).1 = 5/2 := by
  have hsw : (["Software", "Banks", "Insurance", "Utilities"].any
      fun i => pyIn i "Software—Application") = true := by decide
  have hnet : (["Internet", "Payment", "Social Media", "Marketplace"].any
      fun i => pyIn i "Software—Application") = false := by decide
  norm_num [score_competitive_moat, c5Info, blankInfo, brandCrit, patentsCrit,
    costAdvantageCrit, switchingCostCrit, networkEffectCrit, nicheCrit, longevityCrit,
    truthyF, valF, pyGetS, pyMem, hsw, hnet]

lemma c5Info_risk_eval : (calculate_risk_deductions c5Info).1 = -1 := by
  have htech : (high_tech_industries.any
      fun tech => pyIn tech "Software—Application") = true := by decide
  have hgov : (gov_industries.any fun gov => pyIn gov "Software—Application") = false := by
    decide
  have hchina : ¬ (("" : String) = "China" ∨ ("" : String) = "Hong Kong") := by decide
  norm_num [calculate_risk_deductions, c5Info, blankInfo, truthyF, valF, pyGetS, pyMem,
    htech, hgov, hchina]

/-- C5, counterexample: on the scenario snapshot (Technology, $5B cap, 20%
margin, industry "Software—Application") the moat score is not 1.5, because
the switching-cost rule also fires: "Software" is a substring of
"Software—Application". -/
theorem claim_C5_counterexample :
    ¬ ((score_competitive_moat c5Info).1 = 3/2 ∧
       (calculate_risk_deductions c5Info).1 = -1) := by
  rintro ⟨h1, _⟩
  rw [c5Info_moat_eval] at h1
  norm_num at h1

/-- C5, amended: on the scenario snapshot the moat score is exactly 2.5
(patents +1, switching cost +1, niche +0.5) and the risk deduction is
exactly -1 (tech-industry match). -/
theorem claim_C5_amended_values :
    (score_competitive_moat c5Info).1 = 5/2 ∧
      (calculate_risk_deductions c5Info).1 = -1 :=
  ⟨c5Info_moat_eval, c5Info_risk_eval⟩

/-- C7, counterexample: a snapshot with country "China" but an industry key
holding `None` makes the first risk rule raise (`'x' in None`), so the scorer
returns 0, not a value ≤ -1. -/
theorem claim_C7_counterexample :
    ¬ ((calculate_risk_deductions chinaNoneIndustryInfo).1 ≤ -1) := by
  have h : (calculate_risk_deductions chinaNoneIndustryInfo).1 = 0 := by
    norm_num [calculate_risk_deductions, chinaNoneIndustryInfo, blankInfo, pyGetS]
  rw [h]
  norm_num

/-- C7, amended: on every snapshot whose industry lookup yields a string (the
key is absent, defaulting to the empty string, or holds a string — not
`None`) and whose country is "China" or "Hong Kong", the risk deduction is at
most -1; and exactly -1 when the industry matches none of the
high-volatility-tech substrings and none of the government/defense
substrings. -/
theorem claim_C7_amended_china_risk (s : StockInfo) (industry : String)
    (hind : pyGetS "" s.industry = some industry)
    (hcountry : pyMem (pyGetS "" s.country) ["China", "Hong Kong"] = true) :
    (calculate_risk_deductions s).1 ≤ -1 ∧
      ((high_tech_industries.any fun tech => pyIn tech industry) = false →
        (gov_industries.any fun gov => pyIn gov industry) = false →
        (calculate_risk_deductions s).1 = -1) := by
  simp only [calculate_risk_deductions, hind]
  constructor
  · split_ifs <;> simp_all
  · intro htech hgov
    simp only [htech, hgov, hcountry]
    norm_num

/-- Witness for C7 at a concrete input: country "Hong Kong", industry key
missing, risk deduction exactly -1. -/
theorem claim_C7_witness : (calculate_risk_deductions hkInfo).1 = -1 :=
  (claim_C7_amended_china_risk hkInfo "" rfl (by decide)).2 (by decide) (by decide)
